import Mathlib

/-!
Verification of the AI Toy Companion command-response pipeline.

Shallow embedding of the hardened application source (the transient-vs-fatal
error classifier, the retry/backoff controller, the multimodal response
parser, the session state transitions, and the error-notice timing), with
theorems checking the documented behaviour of each piece.
-/

set_option autoImplicit false

namespace ToyApp

/-! ### JavaScript string primitives -/

/-- The chars of the needle match the beginning of the haystack.  Models the
comparison step of the JavaScript String.prototype.includes search. -/
def matchesAt : List Char → List Char → Bool
  | [], _ => true
  | _ :: _, [] => false
  | a :: as, b :: bs => a == b && matchesAt as bs

/-- The needle occurs as a contiguous run somewhere in the haystack. -/
def hasSubList (needle : List Char) : List Char → Bool
  | [] => matchesAt needle []
  | c :: rest => matchesAt needle (c :: rest) || hasSubList needle rest

/-- Model of the JavaScript expression hay.includes(needle). -/
def strIncludes (hay needle : String) : Bool :=
  hasSubList needle.data hay.data

/-- Model of JavaScript String.prototype.toLowerCase on the ASCII range. -/
def jsToLower (s : String) : String := ⟨s.data.map Char.toLower⟩

/-- Model of JavaScript String.prototype.trim: strip leading and trailing
whitespace. -/
def jsTrim (s : String) : String :=
  ⟨((s.data.dropWhile Char.isWhitespace).reverse.dropWhile Char.isWhitespace).reverse⟩

/-- Model of JavaScript String.prototype.startsWith. -/
def strStarts (s pre : String) : Bool := matchesAt pre.data s.data

/-! ### Transient-vs-fatal error classifier -/

/-- A JavaScript error value as inspected by the classifier: its optional
message property, and the result of applying String to the value itself. -/
structure JsError where
  message : Option String
  str : String
deriving DecidableEq

/-- Model of the expression String(err.message || err): a present non-empty
message wins, otherwise the stringified error (an empty message is falsy). -/
def jsErrorToString (e : JsError) : String :=
  match e.message with
  | some m => if m = "" then e.str else m
  | none => e.str

/-- Transcription of isQuotaError (src/unnamed/part_000, lines 53-57).  The
argument none models a null or undefined error, on which the initial
falsiness guard returns false. -/
def isQuotaError : Option JsError → Bool
  | none => false
  | some err =>
    let msg := jsToLower (jsErrorToString err)
    strIncludes msg "quota" || strIncludes msg "limit" || strIncludes msg "exceeded" ||
      strIncludes msg "rate limit" || strIncludes msg "429"

/-- C1: the classifier returns Fatal (true) if and only if the stringified
error message, lowercased, contains one of the keywords "quota", "limit",
"exceeded", "rate limit" or "429"; every other error, including a null or
undefined one, is classified Transient (false). -/
theorem isQuotaError_fatal_iff (e : Option JsError) :
    isQuotaError e = true ↔
      ∃ err, e = some err ∧
        (strIncludes (jsToLower (jsErrorToString err)) "quota" = true ∨
         strIncludes (jsToLower (jsErrorToString err)) "limit" = true ∨
         strIncludes (jsToLower (jsErrorToString err)) "exceeded" = true ∨
         strIncludes (jsToLower (jsErrorToString err)) "rate limit" = true ∨
         strIncludes (jsToLower (jsErrorToString err)) "429" = true) := by
  cases e with
  | none => simp [isQuotaError]
  | some err =>
    simp [isQuotaError, Bool.or_eq_true, or_assoc]

/-! ### Generation-service response model

Only the fields the application reads are modelled: the top-level aggregated
text accessor, and the inline binary data of the candidate content parts. -/

/-- The inlineData object of a response part; only its data field is read. -/
structure InlineData where
  data : Option String
deriving DecidableEq

/-- One part of a multimodal generation result. -/
structure RespPart where
  text : Option String
  inlineData : Option InlineData
deriving DecidableEq

/-- The content object of a response candidate. -/
structure RespContent where
  parts : Option (List RespPart)
deriving DecidableEq

/-- A response candidate. -/
structure Candidate where
  content : Option RespContent
deriving DecidableEq

/-- A generation-service response: the aggregated text accessor and the
candidate list.  The SDK resolves with a non-null response, so the value
itself is not optional. -/
structure GenResponse where
  text : Option String
  candidates : Option (List Candidate)
deriving DecidableEq

/-- Transcription of the expression response.text?.trim() ?? '' from the
sendCommand success branch (src/unnamed/part_000, line 420). -/
def foundTextOf (r : GenResponse) : String :=
  match r.text with
  | some t => jsTrim t
  | none => ""

/-- Truthiness of part.inlineData?.data (src/unnamed/part_000, line 423):
some value exactly when the inlineData object and its data field are present
and the data string is non-empty. -/
def partImageData (p : RespPart) : Option String :=
  match p.inlineData with
  | some d =>
    match d.data with
    | some s => if s = "" then none else some s
    | none => none
  | none => none

/-- Transcription of response.candidates?.[0]?.content?.parts || []
(src/unnamed/part_000, line 421). -/
def partsOf (r : GenResponse) : List RespPart :=
  match r.candidates with
  | some (c :: _) =>
    match c.content with
    | some ct => ct.parts.getD []
    | none => []
  | _ => []

/-- The for-loop over the parts (src/unnamed/part_000, lines 422-427): the
first part whose inlineData.data is truthy supplies foundImageData and the
loop breaks; if no part qualifies foundImageData stays the empty string. -/
def scanParts : List RespPart → String
  | [] => ""
  | p :: ps =>
    match partImageData p with
    | some s => s
    | none => scanParts ps

/-! ### Retry/backoff controller -/

/-- Configured retry bound (src/unnamed/part_000, line 25). -/
def SAFE_RETRY_COUNT : Nat := 2

/-- Exponential backoff base in milliseconds (src/unnamed/part_000, line 26). -/
def RETRY_BASE_DELAY_MS : Nat := 800

/-- Result of awaiting one generateContent call: it resolves with a response
or rejects with an error value. -/
inductive Outcome
  | success (r : GenResponse)
  | failure (e : JsError)
deriving DecidableEq

/-- How the retry while-loop ended. -/
inductive LoopEnd
  | ok (r : GenResponse)
  | fatal
  | exhausted
  | noRun
deriving DecidableEq

/-- Observable record of one run of the retry while-loop: how many
generateContent calls were made, which backoff sleeps were awaited between
them (in order), and how the loop ended. -/
structure LoopLog where
  tries : Nat
  sleeps : List Nat
  outcome : LoopEnd
deriving DecidableEq

/-- Transcription of the retry while-loop shared verbatim by sendCommand
(src/unnamed/part_000, lines 400-455) and handleFileChange (lines 298-342):
while attempt <= SAFE_RETRY_COUNT, await the call; on success break; on a
failure classified by isQuotaError break fatally; otherwise increment the
attempt counter, break exhausted once it exceeds SAFE_RETRY_COUNT, else
sleep RETRY_BASE_DELAY_MS * 2 ^ attempt and loop.  The argument act gives
the outcome of the n-th call; the fuel argument only bounds the recursion
and is never exhausted when the loop is entered at attempt 0 with fuel
SAFE_RETRY_COUNT + 1. -/
def retryLoopFuel (act : Nat → Outcome) : Nat → Nat → LoopLog
  | _, 0 => ⟨0, [], .noRun⟩
  | attempt, fuel + 1 =>
    if attempt ≤ SAFE_RETRY_COUNT then
      match act attempt with
      | .success r => ⟨1, [], .ok r⟩
      | .failure e =>
        if isQuotaError (some e) then ⟨1, [], .fatal⟩
        else if SAFE_RETRY_COUNT < attempt + 1 then ⟨1, [], .exhausted⟩
        else
          let rest := retryLoopFuel act (attempt + 1) fuel
          ⟨rest.tries + 1, RETRY_BASE_DELAY_MS * 2 ^ (attempt + 1) :: rest.sleeps, rest.outcome⟩
    else ⟨0, [], .noRun⟩

/-- The retry while-loop entered with attempt = 0. -/
def retryLoop (act : Nat → Outcome) : LoopLog :=
  retryLoopFuel act 0 (SAFE_RETRY_COUNT + 1)

/-- The outcome is a rejection that isQuotaError classifies as transient. -/
def isTransientFailure : Outcome → Bool
  | .failure e => !(isQuotaError (some e))
  | .success _ => false

/-- The outcome is a rejection that isQuotaError classifies as fatal. -/
def isFatalFailure : Outcome → Bool
  | .failure e => isQuotaError (some e)
  | .success _ => false

/-! ### Session state -/

/-- The imagePart stored for the SDK: inlineData with the base64 payload and
the file MIME type (src/unnamed/part_000, line 294). -/
structure ImagePart where
  data : String
  mimeType : String
deriving DecidableEq

/-- The component state fields touched by the flows under verification
(src/unnamed/part_000, lines 66-78).  Fields the claims never mention
(voices, isListening) are omitted. -/
structure AppState where
  toyImage : Option String
  toyImagePart : Option ImagePart
  toyModel : Option String
  toyDescription : String
  userCommand : String
  toyReply : String
  actionImage : Option String
  isLoadingDescription : Bool
  isLoadingResponse : Bool
  error : String
  lastSendAt : Nat
deriving DecidableEq

/-- The useState initial values (src/unnamed/part_000, lines 66-78). -/
def initState : AppState :=
  { toyImage := none, toyImagePart := none, toyModel := none, toyDescription := "",
    userCommand := "", toyReply := "", actionImage := none,
    isLoadingDescription := false, isLoadingResponse := false, error := "",
    lastSendAt := 0 }

/-- Fixed user-facing message for a fatal quota classification, shared by both
retry loops (src/unnamed/part_000, lines 327 and 441). -/
def quotaMsg : String :=
  "Looks like the daily request limit for the AI model has been reached. Please try again tomorrow."

/-- Generic failure surfaced when sendCommand exhausts its retries
(src/unnamed/part_000, line 447). -/
def sendFailMsg : String :=
  "Something went wrong while generating the reply. Please try again."

/-- Parser-level failure surfaced when a well-formed response contains neither
text nor an image (src/unnamed/part_000, line 434). -/
def parseFailMsg : String :=
  "I couldn\x27t produce a reply or image. Try a simpler command like \x27dance\x27 or \x27say hi\x27."

/-- Generic failure surfaced when the description retries are exhausted
(src/unnamed/part_000, line 334). -/
def describeFailMsg : String :=
  "Could not describe the toy. Please try again."

/-- Validation failure for a non-image upload (src/unnamed/part_000, line 278). -/
def imageTypeMsg : String :=
  "Please upload an image file."

/-- Failure surfaced when reading the file rejects (src/unnamed/part_000,
line 345). -/
def readFailMsg : String :=
  "Failed to read the image or call the API."

/-- Placeholder description stored when the describe call succeeds with an
empty or absent text field (src/unnamed/part_000, line 319). -/
def placeholderDescription : String :=
  "A friendly toy! (Could not get a detailed description.)"

/-- State effect of handleError (src/unnamed/part_000, lines 239-245): the
message is stored in the error slot.  The sound effect is ignored and the
6-second dismissal timer is modelled separately by errorAt below. -/
def handleErrorState (s : AppState) (message : String) : AppState :=
  { s with error := message }

/-- Transcription of startOver (src/unnamed/part_000, lines 247-270): every
transient field is cleared.  The loading flags and lastSendAt are not
touched by it, and the abort of the in-flight controller is modelled in
sendCommandResetDuringTry below. -/
def startOver (s : AppState) : AppState :=
  { s with
    toyImage := none, toyImagePart := none, toyModel := none,
    toyDescription := "", userCommand := "", toyReply := "", actionImage := none,
    error := "" }

/-- State after the sendCommand guards pass (src/unnamed/part_000, lines
370-387): canSendNow records the accepted submission time, then the loading
flag is raised and the reply, action image and error slots are cleared. -/
def preSend (s : AppState) (now : Nat) : AppState :=
  { s with
    lastSendAt := now, isLoadingResponse := true, toyReply := "",
    actionImage := none, error := "" }

/-- State writes performed when the sendCommand retry loop ends
(src/unnamed/part_000, lines 416-447): on success the parsed text and first
inline image are stored when present and a parser-level error is raised when
neither is found; a fatal end stores the quota message; an exhausted end
stores the generic failure message. -/
def applySendOutcome (s : AppState) : LoopEnd → AppState
  | .ok r =>
    let foundText := foundTextOf r
    let foundImageData := scanParts (partsOf r)
    let s1 := if foundText = "" then s else { s with toyReply := foundText }
    let s2 := if foundImageData = "" then s1
      else { s1 with actionImage := some ("data:image/png;base64," ++ foundImageData) }
    if foundText = "" ∧ foundImageData = "" then handleErrorState s2 parseFailMsg else s2
  | .fatal => handleErrorState s quotaMsg
  | .exhausted => handleErrorState s sendFailMsg
  | .noRun => s

/-- Observable result of one sendCommand invocation: the final component
state, how many generateContent calls were issued, and the backoff sleeps
that were awaited. -/
structure SendResult where
  state : AppState
  remoteCalls : Nat
  sleeps : List Nat
deriving DecidableEq

/-- Transcription of sendCommand (src/unnamed/part_000, lines 377-458).  The
argument commandText models the optional parameter (none when the form
submits the typed command the code falls back to userCommand), now models
Date.now() inside canSendNow, and act gives the outcome of each
generateContent call. -/
def sendCommand (s : AppState) (now : Nat) (commandText : Option String)
    (act : Nat → Outcome) : SendResult :=
  let cmd := jsTrim (commandText.getD s.userCommand)
  if cmd = "" then ⟨s, 0, []⟩
  else if s.toyImagePart = none then ⟨s, 0, []⟩
  else if now - s.lastSendAt < 600 then ⟨s, 0, []⟩
  else
    let log := retryLoop act
    let s2 := applySendOutcome (preSend s now) log.outcome
    ⟨{ s2 with isLoadingResponse := false }, log.tries, log.sleeps⟩

/-! ### Image upload and description flow -/

/-- The uploaded file as the handler sees it: its name and MIME type. -/
structure ToyFile where
  name : String
  mime : String
deriving DecidableEq

/-- Result of awaiting base64Encode: the encoded payload, or a rejection. -/
inductive ReadResult
  | ok (b64 : String)
  | err
deriving DecidableEq

/-- State writes performed when the describe retry loop ends
(src/unnamed/part_000, lines 312-335): on success the parsed text is stored,
with a fixed placeholder when it is empty or absent; a fatal end stores the
quota message; an exhausted end stores the describe failure message.  None
of the failure ends clears the captured image. -/
def applyDescribeOutcome (s : AppState) : LoopEnd → AppState
  | .ok r =>
    let parsedText := r.text.getD ""
    if parsedText = "" then { s with toyDescription := placeholderDescription }
    else { s with toyDescription := parsedText }
  | .fatal => handleErrorState s quotaMsg
  | .exhausted => handleErrorState s describeFailMsg
  | .noRun => s

/-- Observable result of one handleFileChange invocation. -/
structure DescribeResult where
  state : AppState
  remoteCalls : Nat
  sleeps : List Nat
deriving DecidableEq

/-- Transcription of handleFileChange (src/unnamed/part_000, lines 273-355):
a missing file is ignored; a non-image MIME type raises a validation error
and changes nothing else; otherwise the session is reset, the preview URL is
shown, the loading flag raised, and the file is read.  A read rejection is
handled by the outer catch, which raises the read error and clears the
preview.  On a successful read the imagePart is stored and the describe
retry loop runs; its exit writes are applied and the loading flag cleared. -/
def handleFileChange (s : AppState) (file : Option ToyFile) (read : ReadResult)
    (objUrl : String) (act : Nat → Outcome) : DescribeResult :=
  match file with
  | none => ⟨s, 0, []⟩
  | some f =>
    if ¬ strStarts f.mime "image/" then ⟨handleErrorState s imageTypeMsg, 0, []⟩
    else
      let s2 := { startOver s with toyImage := some objUrl, isLoadingDescription := true }
      match read with
      | .err =>
        ⟨{ handleErrorState s2 readFailMsg with
            toyImage := none, isLoadingDescription := false }, 0, []⟩
      | .ok b64 =>
        let s3 := { s2 with toyImagePart := some ⟨b64, f.mime⟩ }
        let log := retryLoop act
        let s4 := applyDescribeOutcome s3 log.outcome
        ⟨{ s4 with isLoadingDescription := false }, log.tries, log.sleeps⟩

/-! ### Session reset racing an in-flight command -/

/-- The rejection produced when the abort controller cancels the awaited
fetch: a DOMException whose message names the user abort.  Its text contains
none of the quota keywords. -/
def abortErrorJs : JsError :=
  ⟨some "The user aborted a request.", "AbortError: The user aborted a request."⟩

/-- Execution of sendCommand when startOver fires while try number j of its
retry loop is awaiting the remote call.  In the source every state write of
the loop happens at its exit (success parsing, error notices), so the exit
writes land on the state left by startOver; startOver itself leaves
isLoadingResponse and lastSendAt untouched.  If the abort signal is honoured
(abortWorks), the awaited call rejects with abortErrorJs, which the catch
block hands to isQuotaError like any other failure; otherwise try j resolves
with its original outcome.  The model is faithful for runs in which the
tries before j failed transiently, since otherwise the loop would already
have exited before the reset. -/
def sendCommandResetDuringTry (s : AppState) (now : Nat) (commandText : Option String)
    (act : Nat → Outcome) (j : Nat) (abortWorks : Bool) : SendResult :=
  let cmd := jsTrim (commandText.getD s.userCommand)
  if cmd = "" then ⟨s, 0, []⟩
  else if s.toyImagePart = none then ⟨s, 0, []⟩
  else if now - s.lastSendAt < 600 then ⟨s, 0, []⟩
  else
    let actSeen : Nat → Outcome :=
      fun n => if abortWorks && n == j then .failure abortErrorJs else act n
    let log := retryLoop actSeen
    let s2 := applySendOutcome (startOver (preSend s now)) log.outcome
    ⟨{ s2 with isLoadingResponse := false }, log.tries, log.sleeps⟩

/-! ### Error-notice timing

handleError stores the message and schedules setError('') with setTimeout
6000 without keeping or clearing any timer handle, so every call leaves an
uncancelled clear event 6000 ms after it (src/unnamed/part_000, lines
239-245).  The denotation below gives the content of the error slot at any
time: the last message set no later than the query time, unless some clear
event has fired strictly after that set and no later than the query time.
Simultaneous events are resolved the way the sequential source runs them:
among calls at the same tick the later one wins, and a timer firing at the
same tick as a call is run before it. -/

/-- One handleError call: when it ran and which message it stored. -/
structure NoticeCall where
  time : Nat
  msg : String
deriving DecidableEq

/-- The latest handleError call no later than t (ties: later in call order). -/
def lastCall (calls : List NoticeCall) (t : Nat) : Option NoticeCall :=
  calls.foldl
    (fun acc e =>
      if e.time ≤ t then
        match acc with
        | some a => if a.time ≤ e.time then some e else some a
        | none => some e
      else acc)
    none

/-- Some scheduled clear event fires strictly after time u and no later
than t. -/
def clearedSince (calls : List NoticeCall) (u t : Nat) : Bool :=
  calls.any (fun e => decide (u < e.time + 6000) && decide (e.time + 6000 ≤ t))

/-- Content of the error slot at time t, given the handleError call
history. -/
def errorAt (calls : List NoticeCall) (t : Nat) : String :=
  match lastCall calls t with
  | none => ""
  | some e => if clearedSince calls e.time t then "" else e.msg

/-! ### Shared helper lemmas -/

/-- Once entered, the retry loop issues at least one remote call. -/
theorem retryLoop_tries_pos (act : Nat → Outcome) : 1 ≤ (retryLoop act).tries := by
  cases hact : act 0 with
  | success r => simp [retryLoop, retryLoopFuel, hact]
  | failure e =>
    by_cases hq : isQuotaError (some e) = true
    · simp [retryLoop, retryLoopFuel, hact, hq]
    · simp only [Bool.not_eq_true] at hq
      simp [retryLoop, retryLoopFuel, hact, hq, SAFE_RETRY_COUNT]

/-- When all three guards pass, sendCommand runs the retry loop on the
prepared state and lowers the loading flag at the end. -/
theorem sendCommand_accepted (s : AppState) (now : Nat) (ct : Option String)
    (act : Nat → Outcome)
    (hcmd : jsTrim (ct.getD s.userCommand) ≠ "")
    (himg : s.toyImagePart ≠ none)
    (hdeb : ¬ now - s.lastSendAt < 600) :
    sendCommand s now ct act =
      ⟨{ applySendOutcome (preSend s now) (retryLoop act).outcome with
          isLoadingResponse := false }, (retryLoop act).tries, (retryLoop act).sleeps⟩ := by
  simp [sendCommand, hcmd, himg, hdeb]

/-- The loop-exit writes never touch the debounce timestamp. -/
theorem applySendOutcome_lastSendAt (s : AppState) (o : LoopEnd) :
    (applySendOutcome s o).lastSendAt = s.lastSendAt := by
  cases o with
  | ok r => simp only [applySendOutcome, handleErrorState]; split_ifs <;> rfl
  | fatal => rfl
  | exhausted => rfl
  | noRun => rfl

/-- The part scan returns the payload of the first part carrying one. -/
theorem scanParts_first (l1 : List RespPart) (p : RespPart) (l2 : List RespPart)
    (h1 : ∀ q ∈ l1, partImageData q = none) (s : String)
    (hp : partImageData p = some s) :
    scanParts (l1 ++ p :: l2) = s := by
  induction l1 with
  | nil => simp [scanParts, hp]
  | cons q l ih =>
    have hq := h1 q (List.mem_cons_self q l)
    simp [scanParts, hq, ih (fun x hx => h1 x (List.mem_cons_of_mem q hx))]

/-- The part scan finds nothing when no part carries a payload. -/
theorem scanParts_all_none (l : List RespPart)
    (h : ∀ q ∈ l, partImageData q = none) : scanParts l = "" := by
  induction l with
  | nil => rfl
  | cons q l ih =>
    have hq := h q (List.mem_cons_self q l)
    simp [scanParts, hq, ih (fun x hx => h x (List.mem_cons_of_mem q hx))]

/-- A payload returned by the truthiness test is never the empty string. -/
theorem partImageData_ne_empty (p : RespPart) (s : String)
    (h : partImageData p = some s) : s ≠ "" := by
  rcases p with ⟨t, d⟩
  rcases d with _ | ⟨dd⟩
  · simp [partImageData] at h
  · rcases dd with _ | str
    · simp [partImageData] at h
    · by_cases hs : str = ""
      · simp [partImageData, hs] at h
      · simp only [partImageData, if_neg hs, Option.some.injEq] at h
        exact h ▸ hs

/-! ### Concrete fixtures used by the witnesses -/

/-- A rejection whose text contains none of the quota keywords. -/
def transientErr : JsError := ⟨some "network hiccup", "Error: network hiccup"⟩

/-- A rejection whose text names an exceeded quota. -/
def fatalQuotaErr : JsError :=
  ⟨some "Quota exceeded for today", "Error: Quota exceeded for today"⟩

/-- A session that has a captured image and stored description. -/
def readyEx : AppState :=
  { initState with
    toyImage := some "blob:toy", toyImagePart := some ⟨"QUJD", "image/png"⟩,
    toyDescription := "A fluffy bear" }

/-! ### Claim theorems -/

/-- C2: when every attempt fails with an error classified Transient, the
retry controller (maxAttempts = 2, baseDelayMs = 800) performs exactly
maxAttempts + 1 = 3 attempts before surfacing the generic failure message,
sleeping baseDelayMs * 2 ^ k between consecutive attempts with k starting
at 1, i.e. 1600 ms then 3200 ms, strictly increasing. -/
theorem all_transient_exhausts_three_tries (act : Nat → Outcome)
    (h : ∀ n, n ≤ SAFE_RETRY_COUNT → isTransientFailure (act n) = true)
    (s : AppState) (now : Nat) (ct : Option String)
    (hcmd : jsTrim (ct.getD s.userCommand) ≠ "")
    (himg : s.toyImagePart ≠ none)
    (hdeb : ¬ now - s.lastSendAt < 600) :
    (retryLoop act).tries = SAFE_RETRY_COUNT + 1 ∧
    (retryLoop act).sleeps = [RETRY_BASE_DELAY_MS * 2 ^ 1, RETRY_BASE_DELAY_MS * 2 ^ 2] ∧
    (retryLoop act).sleeps = [1600, 3200] ∧
    List.Chain' (fun a b => a < b) (retryLoop act).sleeps ∧
    (sendCommand s now ct act).remoteCalls = 3 ∧
    (sendCommand s now ct act).state.error = sendFailMsg := by
  have h0 := h 0 (by decide)
  have h1 := h 1 (by decide)
  have h2 := h 2 (by decide)
  have hloop : retryLoop act = ⟨3, [1600, 3200], .exhausted⟩ := by
    cases hact0 : act 0 with
    | success r => rw [hact0] at h0; simp [isTransientFailure] at h0
    | failure e0 =>
      cases hact1 : act 1 with
      | success r => rw [hact1] at h1; simp [isTransientFailure] at h1
      | failure e1 =>
        cases hact2 : act 2 with
        | success r => rw [hact2] at h2; simp [isTransientFailure] at h2
        | failure e2 =>
          rw [hact0] at h0; rw [hact1] at h1; rw [hact2] at h2
          simp only [isTransientFailure, Bool.not_eq_true'] at h0 h1 h2
          simp [retryLoop, retryLoopFuel, hact0, hact1, hact2, h0, h1, h2,
            SAFE_RETRY_COUNT, RETRY_BASE_DELAY_MS]
  have hsend := sendCommand_accepted s now ct act hcmd himg hdeb
  rw [hsend, hloop]
  refine ⟨rfl, by norm_num [RETRY_BASE_DELAY_MS], rfl, by simp, rfl, ?_⟩
  simp [applySendOutcome, handleErrorState]

/-- Witness for C2 at a concrete always-transient action. -/
theorem all_transient_exhausts_three_tries_witness :
    (retryLoop (fun _ => Outcome.failure transientErr)).tries = SAFE_RETRY_COUNT + 1 ∧
    (retryLoop (fun _ => Outcome.failure transientErr)).sleeps = [1600, 3200] ∧
    (sendCommand readyEx 1000 (some "dance")
      (fun _ => Outcome.failure transientErr)).state.error = sendFailMsg := by
  have h := all_transient_exhausts_three_tries (fun _ => Outcome.failure transientErr)
    (by decide) readyEx 1000 (some "dance") (by decide) (by decide) (by decide)
  exact ⟨h.1, h.2.2.1, h.2.2.2.2.2⟩

/-- C3: when the j-th attempt fails with an error classified Fatal (after j
transient failures), the retry controller stops right there: j + 1 calls in
total, no further sleeps beyond the j backoffs already taken, and the fixed
daily-limit message is surfaced. -/
theorem fatal_aborts_immediately (act : Nat → Outcome) (j : Nat)
    (hj : j ≤ SAFE_RETRY_COUNT)
    (hpre : ∀ i, i < j → isTransientFailure (act i) = true)
    (hfat : isFatalFailure (act j) = true)
    (s : AppState) (now : Nat) (ct : Option String)
    (hcmd : jsTrim (ct.getD s.userCommand) ≠ "")
    (himg : s.toyImagePart ≠ none)
    (hdeb : ¬ now - s.lastSendAt < 600) :
    (retryLoop act).tries = j + 1 ∧
    (retryLoop act).outcome = LoopEnd.fatal ∧
    (retryLoop act).sleeps =
      (List.range j).map (fun i => RETRY_BASE_DELAY_MS * 2 ^ (i + 1)) ∧
    (sendCommand s now ct act).remoteCalls = j + 1 ∧
    (sendCommand s now ct act).state.error = quotaMsg := by
  have hj' : j ≤ 2 := hj
  have hloop : retryLoop act =
      ⟨j + 1, (List.range j).map (fun i => RETRY_BASE_DELAY_MS * 2 ^ (i + 1)),
        LoopEnd.fatal⟩ := by
    interval_cases j
    · cases hact0 : act 0 with
      | success r => rw [hact0] at hfat; simp [isFatalFailure] at hfat
      | failure e0 =>
        rw [hact0] at hfat; simp only [isFatalFailure] at hfat
        simp [retryLoop, retryLoopFuel, hact0, hfat, SAFE_RETRY_COUNT]
    · have h0 := hpre 0 (by decide)
      cases hact0 : act 0 with
      | success r => rw [hact0] at h0; simp [isTransientFailure] at h0
      | failure e0 =>
        rw [hact0] at h0
        simp only [isTransientFailure, Bool.not_eq_true'] at h0
        cases hact1 : act 1 with
        | success r => rw [hact1] at hfat; simp [isFatalFailure] at hfat
        | failure e1 =>
          rw [hact1] at hfat; simp only [isFatalFailure] at hfat
          simp [retryLoop, retryLoopFuel, hact0, h0, hact1, hfat,
            SAFE_RETRY_COUNT, List.range_succ]
    · have h0 := hpre 0 (by decide)
      have h1 := hpre 1 (by decide)
      cases hact0 : act 0 with
      | success r => rw [hact0] at h0; simp [isTransientFailure] at h0
      | failure e0 =>
        rw [hact0] at h0
        simp only [isTransientFailure, Bool.not_eq_true'] at h0
        cases hact1 : act 1 with
        | success r => rw [hact1] at h1; simp [isTransientFailure] at h1
        | failure e1 =>
          rw [hact1] at h1
          simp only [isTransientFailure, Bool.not_eq_true'] at h1
          cases hact2 : act 2 with
          | success r => rw [hact2] at hfat; simp [isFatalFailure] at hfat
          | failure e2 =>
            rw [hact2] at hfat; simp only [isFatalFailure] at hfat
            simp [retryLoop, retryLoopFuel, hact0, h0, hact1, h1, hact2, hfat,
              SAFE_RETRY_COUNT, List.range_succ]
  have hsend := sendCommand_accepted s now ct act hcmd himg hdeb
  rw [hsend, hloop]
  exact ⟨rfl, rfl, rfl, rfl, by simp [applySendOutcome, handleErrorState]⟩

/-- Witness for C3: one transient failure followed by a quota failure. -/
theorem fatal_aborts_immediately_witness :
    (retryLoop (fun n => if n == 0 then Outcome.failure transientErr
      else Outcome.failure fatalQuotaErr)).tries = 2 ∧
    (retryLoop (fun n => if n == 0 then Outcome.failure transientErr
      else Outcome.failure fatalQuotaErr)).outcome = LoopEnd.fatal ∧
    (sendCommand readyEx 1000 (some "dance")
      (fun n => if n == 0 then Outcome.failure transientErr
        else Outcome.failure fatalQuotaErr)).state.error = quotaMsg := by
  have h := fatal_aborts_immediately
    (fun n => if n == 0 then Outcome.failure transientErr
      else Outcome.failure fatalQuotaErr)
    1 (by decide) (by decide) (by decide)
    readyEx 1000 (some "dance") (by decide) (by decide) (by decide)
  exact ⟨h.1, h.2.1, h.2.2.2.2⟩

/-- C5: a submitCommand invocation whose command text trims to the empty
string, or made while no image part has been captured, is a no-op: the
state is returned unchanged, no generateContent call is issued and no
backoff sleep happens. -/
theorem empty_or_imageless_submit_noop (s : AppState) (now : Nat)
    (ct : Option String) (act : Nat → Outcome)
    (h : jsTrim (ct.getD s.userCommand) = "" ∨ s.toyImagePart = none) :
    sendCommand s now ct act = ⟨s, 0, []⟩ := by
  rcases h with h | h
  · simp [sendCommand, h]
  · by_cases hc : jsTrim (ct.getD s.userCommand) = ""
    · simp [sendCommand, hc]
    · simp [sendCommand, hc, h]

/-- Witness for C5: a whitespace-only command, and a missing image. -/
theorem empty_or_imageless_submit_noop_witness :
    sendCommand readyEx 1000 (some "   ") (fun _ => Outcome.failure transientErr) =
      ⟨readyEx, 0, []⟩ ∧
    sendCommand initState 1000 (some "dance") (fun _ => Outcome.failure transientErr) =
      ⟨initState, 0, []⟩ := by
  exact ⟨empty_or_imageless_submit_noop readyEx 1000 (some "   ") _ (Or.inl (by decide)),
    empty_or_imageless_submit_noop initState 1000 (some "dance") _ (Or.inr (by decide))⟩

/-- C6: when a second submitCommand lands strictly less than 600 ms after an
accepted one, only the first is accepted: the first issues at least one
remote call, the second changes nothing and issues none. -/
theorem debounce_rejects_second (s : AppState) (now1 now2 : Nat)
    (ct1 ct2 : Option String) (act1 act2 : Nat → Outcome)
    (hcmd : jsTrim (ct1.getD s.userCommand) ≠ "")
    (himg : s.toyImagePart ≠ none)
    (hdeb : ¬ now1 - s.lastSendAt < 600)
    (hord : now1 ≤ now2) (hgap : now2 < now1 + 600) :
    1 ≤ (sendCommand s now1 ct1 act1).remoteCalls ∧
    sendCommand (sendCommand s now1 ct1 act1).state now2 ct2 act2 =
      ⟨(sendCommand s now1 ct1 act1).state, 0, []⟩ := by
  have hacc := sendCommand_accepted s now1 ct1 act1 hcmd himg hdeb
  have hlast : (sendCommand s now1 ct1 act1).state.lastSendAt = now1 := by
    rw [hacc]
    show (applySendOutcome (preSend s now1) (retryLoop act1).outcome).lastSendAt = now1
    rw [applySendOutcome_lastSendAt]
    rfl
  constructor
  · rw [hacc]; exact retryLoop_tries_pos act1
  · have hd2 : now2 - (sendCommand s now1 ct1 act1).state.lastSendAt < 600 := by
      rw [hlast]; omega
    generalize hS : (sendCommand s now1 ct1 act1).state = S at hd2 ⊢
    by_cases hc : jsTrim (ct2.getD S.userCommand) = ""
    · simp [sendCommand, hc]
    · by_cases hi : S.toyImagePart = none
      · simp [sendCommand, hc, hi]
      · simp [sendCommand, hc, hi, hd2]

/-- Witness for C6: two submissions 500 ms apart. -/
theorem debounce_rejects_second_witness :
    1 ≤ (sendCommand readyEx 1000 (some "dance")
          (fun _ => Outcome.failure transientErr)).remoteCalls ∧
    sendCommand (sendCommand readyEx 1000 (some "dance")
        (fun _ => Outcome.failure transientErr)).state 1500 (some "jump")
        (fun _ => Outcome.failure transientErr) =
      ⟨(sendCommand readyEx 1000 (some "dance")
          (fun _ => Outcome.failure transientErr)).state, 0, []⟩ := by
  exact debounce_rejects_second readyEx 1000 1500 (some "dance") (some "jump")
    (fun _ => Outcome.failure transientErr) (fun _ => Outcome.failure transientErr)
    (by decide) (by decide) (by decide) (by decide) (by decide)

/-- C4: the response parser takes the top-level aggregated text field,
trimmed, as the reply (an empty trimmed text is treated as absent and leaves
the reply slot alone), stores as action image only the first part in order
carrying an inline binary payload (whatever parts follow it), and when
neither text nor image is found raises the parser-level message, which
differs from both the transport failure message and the quota message. -/
theorem parser_policy :
    (∀ r : GenResponse, foundTextOf r = jsTrim (r.text.getD "")) ∧
    (∀ (s : AppState) (r : GenResponse),
      foundTextOf r ≠ "" →
      (applySendOutcome s (LoopEnd.ok r)).toyReply = foundTextOf r) ∧
    (∀ (s : AppState) (r : GenResponse),
      foundTextOf r = "" →
      (applySendOutcome s (LoopEnd.ok r)).toyReply = s.toyReply) ∧
    (∀ (s : AppState) (r : GenResponse) (l1 : List RespPart) (p : RespPart)
        (l2 : List RespPart) (d : String),
      partsOf r = l1 ++ p :: l2 → (∀ q ∈ l1, partImageData q = none) →
      partImageData p = some d →
      (applySendOutcome s (LoopEnd.ok r)).actionImage =
        some ("data:image/png;base64," ++ d)) ∧
    (∀ (s : AppState) (r : GenResponse),
      foundTextOf r = "" → (∀ q ∈ partsOf r, partImageData q = none) →
      (applySendOutcome s (LoopEnd.ok r)).error = parseFailMsg) ∧
    parseFailMsg ≠ sendFailMsg ∧ parseFailMsg ≠ quotaMsg := by
  refine ⟨?_, ?_, ?_, ?_, ?_, by decide, by decide⟩
  · intro r
    cases h : r.text <;> simp [foundTextOf, h, jsTrim]
  · intro s r h
    simp only [applySendOutcome, handleErrorState, if_neg h]
    split_ifs with h2 h3 <;> simp_all
  · intro s r h
    simp only [applySendOutcome, handleErrorState, if_pos h]
    split_ifs with h2 h3 <;> simp_all
  · intro s r l1 p l2 d hparts hnone hp
    have himg : scanParts (partsOf r) = d := by
      rw [hparts]; exact scanParts_first l1 p l2 hnone d hp
    have hne := partImageData_ne_empty p d hp
    simp only [applySendOutcome, handleErrorState, himg, if_neg hne]
    split_ifs with h2 h3 <;> simp_all
  · intro s r htext hnone
    have himg : scanParts (partsOf r) = "" := scanParts_all_none _ hnone
    simp [applySendOutcome, handleErrorState, himg, htext]

/-- A response part carrying only text. -/
def partTextEx : RespPart := ⟨some "Whee!", none⟩

/-- The first response part carrying an inline payload. -/
def partImg1 : RespPart := ⟨none, some ⟨some "IMGONE"⟩⟩

/-- A later response part carrying another inline payload. -/
def partImg2 : RespPart := ⟨none, some ⟨some "IMGTWO"⟩⟩

/-- A response with aggregated text and two image parts. -/
def respEx : GenResponse :=
  ⟨some "  Whee! I love to dance!  ",
    some [⟨some ⟨some [partTextEx, partImg1, partImg2]⟩⟩]⟩

/-- Witness for C4: trimmed text stored, first of two images kept, and the
parser-level message raised on an empty response. -/
theorem parser_policy_witness :
    (applySendOutcome readyEx (LoopEnd.ok respEx)).toyReply =
      "Whee! I love to dance!" ∧
    (applySendOutcome readyEx (LoopEnd.ok respEx)).actionImage =
      some "data:image/png;base64,IMGONE" ∧
    (applySendOutcome readyEx (LoopEnd.ok (⟨none, none⟩ : GenResponse))).error =
      parseFailMsg := by
  refine ⟨?_, ?_, ?_⟩
  · have h := parser_policy.2.1 readyEx respEx (by decide)
    rw [h]; decide
  · exact parser_policy.2.2.2.1 readyEx respEx [partTextEx] partImg1 [partImg2]
      "IMGONE" (by decide) (by decide) (by decide)
  · exact parser_policy.2.2.2.2.1 readyEx ⟨none, none⟩ (by decide) (by decide)

/-- Counterexample to C7: when the describe fetch fails fatally the captured
image and its payload are NOT cleared and the session does not return to
Idle; the quota notice is shown while the image stays loaded. -/
theorem describe_failure_keeps_image_cex :
    (handleFileChange initState (some ⟨"toy.png", "image/png"⟩) (ReadResult.ok "QUJD")
        "blob:toy" (fun _ => Outcome.failure fatalQuotaErr)).state.toyImage =
      some "blob:toy" ∧
    (handleFileChange initState (some ⟨"toy.png", "image/png"⟩) (ReadResult.ok "QUJD")
        "blob:toy" (fun _ => Outcome.failure fatalQuotaErr)).state.toyImagePart =
      some ⟨"QUJD", "image/png"⟩ ∧
    (handleFileChange initState (some ⟨"toy.png", "image/png"⟩) (ReadResult.ok "QUJD")
        "blob:toy" (fun _ => Outcome.failure fatalQuotaErr)).state.error = quotaMsg := by
  decide

/-- C7 amended: when the describe fetch ends fatally or with retries
exhausted, an error notice is shown (the quota message, resp. the describe
failure message) and the loading flag is lowered, but the captured image and
its encoded payload are retained, so the session stays in the image-loaded
view instead of returning to Idle; only a failure to read the file clears
the captured image. -/
theorem describe_failure_shows_error_keeps_image (s : AppState) (f : ToyFile)
    (b64 url : String) (act : Nat → Outcome)
    (himg : strStarts f.mime "image/" = true)
    (hfail : (retryLoop act).outcome = LoopEnd.fatal ∨
      (retryLoop act).outcome = LoopEnd.exhausted) :
    (handleFileChange s (some f) (ReadResult.ok b64) url act).state.toyImage =
      some url ∧
    (handleFileChange s (some f) (ReadResult.ok b64) url act).state.toyImagePart =
      some ⟨b64, f.mime⟩ ∧
    (handleFileChange s (some f) (ReadResult.ok b64) url act).state.isLoadingDescription =
      false ∧
    (handleFileChange s (some f) (ReadResult.ok b64) url act).state.error =
      (if (retryLoop act).outcome = LoopEnd.fatal then quotaMsg else describeFailMsg) ∧
    (handleFileChange s (some f) ReadResult.err url act).state.toyImage = none := by
  rcases hfail with h | h <;>
    simp [handleFileChange, himg, h, applyDescribeOutcome, handleErrorState, startOver]

/-- Witness for C7 amended: an always-transient action exhausts the retries
and the image survives. -/
theorem describe_failure_shows_error_keeps_image_witness :
    (handleFileChange initState (some ⟨"toy.png", "image/png"⟩) (ReadResult.ok "QUJD")
        "blob:w7" (fun _ => Outcome.failure transientErr)).state.toyImage =
      some "blob:w7" ∧
    (handleFileChange initState (some ⟨"toy.png", "image/png"⟩) (ReadResult.ok "QUJD")
        "blob:w7" (fun _ => Outcome.failure transientErr)).state.toyImagePart =
      some ⟨"QUJD", "image/png"⟩ ∧
    (handleFileChange initState (some ⟨"toy.png", "image/png"⟩) (ReadResult.ok "QUJD")
        "blob:w7" (fun _ => Outcome.failure transientErr)).state.isLoadingDescription =
      false ∧
    (handleFileChange initState (some ⟨"toy.png", "image/png"⟩) (ReadResult.ok "QUJD")
        "blob:w7" (fun _ => Outcome.failure transientErr)).state.error =
      (if (retryLoop (fun _ => Outcome.failure transientErr)).outcome = LoopEnd.fatal
        then quotaMsg else describeFailMsg) ∧
    (handleFileChange initState (some ⟨"toy.png", "image/png"⟩) ReadResult.err
        "blob:w7" (fun _ => Outcome.failure transientErr)).state.toyImage = none := by
  exact describe_failure_shows_error_keeps_image initState ⟨"toy.png", "image/png"⟩
    "QUJD" "blob:w7" (fun _ => Outcome.failure transientErr) (by decide)
    (Or.inr (by decide))

/-- C10: when the describe call succeeds but its text field is empty or
absent, the session still reaches the ready view with the fixed placeholder
description stored: no error is raised, loading ends, and the captured image
and payload are kept, after exactly one remote call. -/
theorem empty_description_gets_placeholder (s : AppState) (f : ToyFile)
    (b64 url : String) (act : Nat → Outcome) (r : GenResponse)
    (himg : strStarts f.mime "image/" = true)
    (hact : act 0 = Outcome.success r)
    (htext : r.text.getD "" = "") :
    (handleFileChange s (some f) (ReadResult.ok b64) url act).state.toyDescription =
      placeholderDescription ∧
    (handleFileChange s (some f) (ReadResult.ok b64) url act).state.error = "" ∧
    (handleFileChange s (some f) (ReadResult.ok b64) url act).state.isLoadingDescription =
      false ∧
    (handleFileChange s (some f) (ReadResult.ok b64) url act).state.toyImage =
      some url ∧
    (handleFileChange s (some f) (ReadResult.ok b64) url act).state.toyImagePart =
      some ⟨b64, f.mime⟩ ∧
    (handleFileChange s (some f) (ReadResult.ok b64) url act).remoteCalls = 1 := by
  have hloop : retryLoop act = ⟨1, [], LoopEnd.ok r⟩ := by
    simp [retryLoop, retryLoopFuel, hact, SAFE_RETRY_COUNT]
  simp [handleFileChange, himg, hloop, applyDescribeOutcome, htext, startOver]

/-- Witness for C10: a successful describe call whose text is empty. -/
theorem empty_description_gets_placeholder_witness :
    (handleFileChange initState (some ⟨"toy.png", "image/png"⟩) (ReadResult.ok "QUJD")
        "blob:w10" (fun _ => Outcome.success ⟨some "", none⟩)).state.toyDescription =
      placeholderDescription ∧
    (handleFileChange initState (some ⟨"toy.png", "image/png"⟩) (ReadResult.ok "QUJD")
        "blob:w10" (fun _ => Outcome.success ⟨some "", none⟩)).state.error = "" ∧
    (handleFileChange initState (some ⟨"toy.png", "image/png"⟩) (ReadResult.ok "QUJD")
        "blob:w10" (fun _ => Outcome.success ⟨some "", none⟩)).state.isLoadingDescription =
      false ∧
    (handleFileChange initState (some ⟨"toy.png", "image/png"⟩) (ReadResult.ok "QUJD")
        "blob:w10" (fun _ => Outcome.success ⟨some "", none⟩)).state.toyImage =
      some "blob:w10" ∧
    (handleFileChange initState (some ⟨"toy.png", "image/png"⟩) (ReadResult.ok "QUJD")
        "blob:w10" (fun _ => Outcome.success ⟨some "", none⟩)).state.toyImagePart =
      some ⟨"QUJD", "image/png"⟩ ∧
    (handleFileChange initState (some ⟨"toy.png", "image/png"⟩) (ReadResult.ok "QUJD")
        "blob:w10" (fun _ => Outcome.success ⟨some "", none⟩)).remoteCalls = 1 := by
  exact empty_description_gets_placeholder initState ⟨"toy.png", "image/png"⟩ "QUJD"
    "blob:w10" (fun _ => Outcome.success ⟨some "", none⟩) ⟨some "", none⟩
    (by decide) (by decide) (by decide)

/-- Counterexample to C8: an error raised at 3000 ms while the notice from
time 0 is still displayed is visible at 5000 ms but already wiped at
7000 ms, when the first notice's uncancelled 6-second timer fires — 2000 ms
before its own timer would — so it is not shown for the full duration. -/
theorem notice_timer_not_restarted_cex :
    errorAt [⟨0, "first boom"⟩, ⟨3000, "second boom"⟩] 5000 = "second boom" ∧
    errorAt [⟨0, "first boom"⟩, ⟨3000, "second boom"⟩] 7000 = "" := by
  decide

/-- A single notice is displayed from its call time until exactly 6000 ms
later, then auto-clears. -/
theorem errorAt_single (u : Nat) (m : String) (t : Nat) :
    errorAt [⟨u, m⟩] t = if u ≤ t ∧ t < u + 6000 then m else "" := by
  by_cases h1 : u ≤ t
  · by_cases h2 : t < u + 6000
    · have h3 : ¬ u + 6000 ≤ t := by omega
      simp [errorAt, lastCall, clearedSince, h1, h2, h3]
    · have h3 : u + 6000 ≤ t := by omega
      have h4 : u < u + 6000 := by omega
      simp [errorAt, lastCall, clearedSince, h1, h2, h3, h4]
  · have h2 : ¬ (u ≤ t ∧ t < u + 6000) := by omega
    simp [errorAt, lastCall, clearedSince, h1, h2]

/-- C8 amended: every error notice auto-clears 6 seconds after it is raised,
and a new error immediately overwrites the one on display; but the earlier
notice's dismissal timer is not cancelled, so when two errors overlap the
second is cleared when the first notice's 6-second timer fires and can be
displayed for less than the full duration. -/
theorem notice_overwrite_timer_not_restarted (t1 t2 : Nat) (m1 m2 : String)
    (h12 : t1 < t2) (hover : t2 < t1 + 6000) :
    (∀ u m t, errorAt [⟨u, m⟩] t = if u ≤ t ∧ t < u + 6000 then m else "") ∧
    (∀ t, t1 ≤ t → t < t2 → errorAt [⟨t1, m1⟩, ⟨t2, m2⟩] t = m1) ∧
    (∀ t, t2 ≤ t → t < t1 + 6000 → errorAt [⟨t1, m1⟩, ⟨t2, m2⟩] t = m2) ∧
    (∀ t, t1 + 6000 ≤ t → errorAt [⟨t1, m1⟩, ⟨t2, m2⟩] t = "") := by
  refine ⟨errorAt_single, ?_, ?_, ?_⟩
  · intro t ha hb
    have c1 : t1 ≤ t := ha
    have c2 : ¬ t2 ≤ t := by omega
    have c3 : ¬ t1 + 6000 ≤ t := by omega
    have c4 : ¬ t2 + 6000 ≤ t := by omega
    simp [errorAt, lastCall, clearedSince, c1, c2, c3, c4]
  · intro t ha hb
    have c1 : t1 ≤ t := by omega
    have c2 : t2 ≤ t := ha
    have c3 : t1 ≤ t2 := by omega
    have c4 : ¬ t1 + 6000 ≤ t := by omega
    have c5 : ¬ t2 + 6000 ≤ t := by omega
    simp [errorAt, lastCall, clearedSince, c1, c2, c3, c4, c5]
  · intro t ha
    have c1 : t1 ≤ t := by omega
    have c2 : t2 ≤ t := by omega
    have c3 : t1 ≤ t2 := by omega
    have c4 : t2 < t1 + 6000 := hover
    have c5 : t1 + 6000 ≤ t := ha
    simp [errorAt, lastCall, clearedSince, c1, c2, c3, c4, c5]

/-- Witness for C8 amended at calls 0 and 3000. -/
theorem notice_overwrite_timer_not_restarted_witness :
    errorAt [⟨0, "oops a"⟩, ⟨3000, "oops b"⟩] 2000 = "oops a" ∧
    errorAt [⟨0, "oops a"⟩, ⟨3000, "oops b"⟩] 4000 = "oops b" ∧
    errorAt [⟨0, "oops a"⟩, ⟨3000, "oops b"⟩] 6500 = "" := by
  have h := notice_overwrite_timer_not_restarted 0 3000 "oops a" "oops b"
    (by decide) (by decide)
  exact ⟨h.2.1 2000 (by decide) (by decide), h.2.2.1 4000 (by decide) (by decide),
    h.2.2.2 6500 (by decide)⟩

/-- C9 fails on the code: resetting the session while a command attempt is
awaiting the remote call does not keep the superseded operation from
mutating state.  The aborted attempt rejects with a message the classifier
deems transient, the loop sleeps and retries, and the retry's response is
written into the freshly reset session: after the reset cleared toyReply,
the superseded sendCommand stores a new reply (and makes a second remote
call). -/
theorem reset_inflight_still_mutates :
    (sendCommandResetDuringTry readyEx 1000 (some "dance")
        (fun _ => Outcome.success respEx) 0 true).state.toyReply =
      "Whee! I love to dance!" ∧
    (sendCommandResetDuringTry readyEx 1000 (some "dance")
        (fun _ => Outcome.success respEx) 0 true).remoteCalls = 2 ∧
    (sendCommandResetDuringTry readyEx 1000 (some "dance")
        (fun _ => Outcome.success respEx) 0 true).sleeps = [1600] ∧
    (startOver (preSend readyEx 1000)).toyReply = "" := by
  decide

end ToyApp
